import Mathlib

/-!
Verification development for the optistock repository.

The extraction scripts (src/scraping/download_query_*.py) work on JSON
values returned by the Alegra API.  We embed JSON values as `JValue`,
Python exceptions relevant to the scripts as `PyError`, and each
normalizer / pagination loop / uploader as an executable Lean function
translated statement by statement from the Python source.  Fallible
Python expressions become `Except PyError`-valued functions; a
`try/except (E1, E2)` block becomes `tryFilter` with the corresponding
error filter.
-/

/-- A JSON value as returned by the source API (Python: dict / list /
str / int / None).  Numbers are modelled as integers; the scripts never
compute with them, they only copy them around. -/
inductive JValue where
  | null
  | num (n : Int)
  | str (s : String)
  | arr (xs : List JValue)
  | obj (fields : List (String × JValue))

/-- The Python exception classes that can arise from the field accesses
performed by the scripts. -/
inductive PyError where
  | keyError
  | typeError
  | attributeError
  | indexError
deriving DecidableEq

/-- Association-list lookup used to model Python dict access (keys are
unique in a dict, so first match is the match). -/
def lookupField : List (String × JValue) → String → Option JValue
  | [], _ => none
  | (k, v) :: rest, key => if k = key then some v else lookupField rest key

/-- Python `d[key]` with a string key: KeyError when the dict lacks the
key, TypeError when the value is not a dict (None, int, list, str). -/
def JValue.subscript : JValue → String → Except PyError JValue
  | .obj fs, k =>
    match lookupField fs k with
    | some v => .ok v
    | none => .error .keyError
  | _, _ => .error .typeError

/-- Python `d[i]` with an integer index: IndexError past the end of a
list or string, KeyError on a dict (the scripts' dicts have string keys
only), TypeError on None / int. -/
def JValue.index : JValue → Nat → Except PyError JValue
  | .arr xs, i =>
    match xs[i]? with
    | some v => .ok v
    | none => .error .indexError
  | .str s, i =>
    match s.data[i]? with
    | some c => .ok (.str (String.mk [c]))
    | none => .error .indexError
  | .obj _, _ => .error .keyError
  | _, _ => .error .typeError

/-- Python `d.get(key, default)`: defaulting lookup on a dict,
AttributeError when the receiver is not a dict (None has no `.get`). -/
def JValue.get : JValue → String → JValue → Except PyError JValue
  | .obj fs, k, dflt => .ok ((lookupField fs k).getD dflt)
  | _, _, _ => .error .attributeError

/-- Python truthiness of a JSON value (`if not x`). -/
def JValue.falsy : JValue → Bool
  | .null => true
  | .num n => n = 0
  | .str s => s = ""
  | .arr xs => xs.isEmpty
  | .obj fs => fs.isEmpty

/-- Whether the value is a dict. -/
def JValue.isObj : JValue → Bool
  | .obj _ => true
  | _ => false

/-- Python `key in d`: key membership for a dict, element membership for
a list, substring test for a string, TypeError otherwise. -/
def JValue.containsKey : JValue → String → Except PyError Bool
  | .obj fs, k => .ok (fs.any (fun kv => kv.1 = k))
  | .arr xs, k =>
    .ok (xs.any (fun x => match x with | .str s => s = k | _ => false))
  | .str s, k => .ok ((s.splitOn k).length ≠ 1)
  | _, _ => .error .typeError

/-- Python `for x in v`: a list iterates its elements, a string its
characters, a dict its keys; None and int are not iterable. -/
def JValue.iterate : JValue → Except PyError (List JValue)
  | .arr xs => .ok xs
  | .str s => .ok (s.data.map (fun c => .str (String.mk [c])))
  | .obj fs => .ok (fs.map (fun kv => JValue.str kv.1))
  | _ => .error .typeError

/-- A `try: ... except (E...): fallback` block around a single
expression: errors matched by `caught` resolve to the fallback value,
others propagate. -/
def tryFilter (caught : PyError → Bool) (body : Except PyError JValue)
    (fallback : JValue) : Except PyError JValue :=
  match body with
  | .ok v => .ok v
  | .error e => if caught e then .ok fallback else .error e

/-- The `(KeyError, TypeError)` filter used by the per-field try blocks. -/
def caughtKT : PyError → Bool
  | .keyError => true
  | .typeError => true
  | _ => false

/-- The `(KeyError, TypeError, IndexError)` filter used for the
`photo_url` field of the items script. -/
def caughtKTI : PyError → Bool
  | .keyError => true
  | .typeError => true
  | .indexError => true
  | _ => false

/-- `try: x except (KeyError, TypeError): None` -/
def tryKT (body : Except PyError JValue) : Except PyError JValue :=
  tryFilter caughtKT body .null

/-- `try: x except (KeyError, TypeError, IndexError): None` -/
def tryKTI (body : Except PyError JValue) : Except PyError JValue :=
  tryFilter caughtKTI body .null

/-- The recovered value of a fallible expression: its result when it
succeeds, None when it raised (used to state what the try blocks
compute). -/
def orNull : Except PyError JValue → JValue
  | .ok v => v
  | .error _ => .null

/-- Chained subscript `v[k1][k2]`. -/
def subscript2 (v : JValue) (k1 k2 : String) : Except PyError JValue :=
  match v.subscript k1 with
  | .error e => .error e
  | .ok w => w.subscript k2

/-- A normalized output row: ordered column-name/value pairs, in the
order the Python dict literal or successive dict assignments create
them. -/
abbrev Row := List (String × JValue)

/-!
Purchases normalizer: `process_purchase_orders_data` of
src/scraping/download_query_purchases.py, lines 108-168.  Each order is
processed inside a `try: ... except Exception: continue`; the row
fields are each wrapped in `try/except (KeyError, TypeError)`.
-/

/-- One `item_data` dict of the purchases script (lines 121-162): the
four order-level values were already computed, the four item-level
values call `item.get`, which raises AttributeError when `item` is not
a dict; that error is not in the per-field filters. -/
def purchaseItemRow (oid ddate wn item : JValue) : Except PyError Row :=
  match tryKT (.ok oid) with
  | .error e => .error e
  | .ok invoice_id =>
  match tryKT (.ok ddate) with
  | .error e => .error e
  | .ok added_inventory_date =>
  match tryKT (.ok oid) with
  | .error e => .error e
  | .ok provider_id =>
  match tryKT (.ok wn) with
  | .error e => .error e
  | .ok warehouse_name =>
  match tryKT (item.get "price" .null) with
  | .error e => .error e
  | .ok price_provider =>
  match tryKT (item.get "quantity" .null) with
  | .error e => .error e
  | .ok quantity =>
  match tryKT (item.get "id" .null) with
  | .error e => .error e
  | .ok item_id =>
  match tryKT (item.get "name" .null) with
  | .error e => .error e
  | .ok item_name =>
    .ok [("invoice_id", invoice_id),
         ("added_inventory_date", added_inventory_date),
         ("provider_id", provider_id),
         ("warehouse_name", warehouse_name),
         ("price_provider", price_provider),
         ("quantity", quantity),
         ("item_id", item_id),
         ("item_name", item_name)]

/-- The `for item in purchases_items` loop (lines 120-164).  Each
completed row was already appended to the output list, so on an
exception the rows built so far survive; the error is reported for the
enclosing catch-all. -/
def purchaseItemsLoop (oid ddate wn : JValue) :
    List JValue → List Row × Option PyError
  | [] => ([], none)
  | item :: rest =>
    match purchaseItemRow oid ddate wn item with
    | .error e => ([], some e)
    | .ok row =>
      let r := purchaseItemsLoop oid ddate wn rest
      (row :: r.1, r.2)

/-- Line 113: `order.get("warehouse", {}).get("name") if
order.get("warehouse") else None`. -/
def purchaseWarehouseName (order : JValue) : Except PyError JValue :=
  match order.get "warehouse" .null with
  | .error e => .error e
  | .ok wtest =>
    if wtest.falsy then .ok .null
    else
      match order.get "warehouse" (.obj []) with
      | .error e => .error e
      | .ok w => w.get "name" .null

/-- Lines 116-118: `purchases_items = order.get("purchases",
{}).get("items", [])`, falling back to `order["items"]` when that is
falsy and the key exists. -/
def purchaseResolvedItems (order : JValue) : Except PyError JValue :=
  match order.get "purchases" (.obj []) with
  | .error e => .error e
  | .ok p =>
    match p.get "items" (.arr []) with
    | .error e => .error e
    | .ok pitems =>
      if pitems.falsy then
        match order.containsKey "items" with
        | .error e => .error e
        | .ok b => if b then order.subscript "items" else .ok pitems
      else .ok pitems

/-- The body of the per-order loop of `process_purchase_orders_data`:
any exception escaping the order-level extraction or the item loop is
swallowed by `except Exception: continue` (line 166), keeping the rows
appended so far. -/
def purchaseOrderRows (order : JValue) : List Row :=
  match order.subscript "id" with
  | .error _ => []
  | .ok oid =>
  match order.get "deliveryDate" .null with
  | .error _ => []
  | .ok ddate =>
  match purchaseWarehouseName order with
  | .error _ => []
  | .ok wn =>
  match purchaseResolvedItems order with
  | .error _ => []
  | .ok its =>
  match its.iterate with
  | .error _ => []
  | .ok items => (purchaseItemsLoop oid ddate wn items).1

/-- Accumulating loop over the batch (a Python list `processed_items`
extended order by order). -/
def processPurchasesGo : List JValue → List Row → List Row
  | [], acc => acc
  | o :: rest, acc => processPurchasesGo rest (acc ++ purchaseOrderRows o)

/-- `process_purchase_orders_data(orders)` (lines 94-171). -/
def process_purchase_orders_data (orders : List JValue) : List Row :=
  processPurchasesGo orders []

/-!
Sales normalizer: `process_invoice_data` of
src/scraping/download_query_sales.py, lines 102-141.  The whole
per-invoice body sits in a single `try: ... except (KeyError,
TypeError): continue`; there are no per-field try blocks, and
AttributeError is not caught anywhere.
-/

/-- The item dict literal of lines 126-133. `item.get` raises
AttributeError when the item is not a dict. -/
def invoiceItemsLoop (iid sdate wname : JValue) :
    List JValue → Except PyError (List Row)
  | [] => .ok []
  | item :: rest =>
    match item.get "id" .null with
    | .error e => .error e
    | .ok item_id =>
    match item.get "name" .null with
    | .error e => .error e
    | .ok item_name =>
    match item.get "quantity" .null with
    | .error e => .error e
    | .ok item_quantity =>
      match invoiceItemsLoop iid sdate wname rest with
      | .error e => .error e
      | .ok rs =>
        .ok ([("factura_id", iid),
              ("fecha_venta", sdate),
              ("item_id", item_id),
              ("item_name", item_name),
              ("item_quantity", item_quantity),
              ("warehouse_name", wname)] :: rs)

/-- The try-block body for one invoice (lines 117-134), in source
order: id, date, items, then `invoice.get("warehouse",
{}).get("name", "Unknown")` — when the invoice carries `"warehouse":
null`, the inner `.get` is called on None and raises AttributeError. -/
def invoiceBody (invoice : JValue) : Except PyError (List Row) :=
  match invoice.get "id" .null with
  | .error e => .error e
  | .ok invoice_id =>
  match invoice.get "date" .null with
  | .error e => .error e
  | .ok sale_date =>
  match invoice.get "items" (.arr []) with
  | .error e => .error e
  | .ok items =>
  match invoice.get "warehouse" (.obj []) with
  | .error e => .error e
  | .ok w =>
  match w.get "name" (.str "Unknown") with
  | .error e => .error e
  | .ok warehouse_name =>
  match items.iterate with
  | .error e => .error e
  | .ok xs => invoiceItemsLoop invoice_id sale_date warehouse_name xs

/-- Whether the per-invoice body either succeeds or fails with an
exception the `except (KeyError, TypeError)` clause catches. -/
def salesBodyCaught (invoice : JValue) : Bool :=
  match invoiceBody invoice with
  | .ok _ => true
  | .error e => caughtKT e

/-- The rows one invoice contributes when its failure (if any) is
caught: the caught branch just logs and continues. -/
def salesRecordRows (invoice : JValue) : List Row :=
  match invoiceBody invoice with
  | .ok rows => rows
  | .error _ => []

/-- Accumulating loop of `process_invoice_data`: KeyError/TypeError are
caught per invoice, anything else propagates out of the function. -/
def processInvoicesGo : List JValue → List Row → Except PyError (List Row)
  | [], acc => .ok acc
  | inv :: rest, acc =>
    match invoiceBody inv with
    | .ok rows => processInvoicesGo rest (acc ++ rows)
    | .error e =>
      if caughtKT e then processInvoicesGo rest acc else .error e

/-- `process_invoice_data(invoices)` (lines 102-141). -/
def process_invoice_data (invoices : List JValue) : Except PyError (List Row) :=
  processInvoicesGo invoices []

/-!
Movements normalizer: `process_warehouse_transfers_data` of
src/scraping/download_query_movements.py, lines 94-160.  The three
transfer-level fields and the three item-level fields each sit in their
own `try/except (KeyError, TypeError)`; the `items` access and loop sit
in a further `try/except (KeyError, TypeError)` whose handler appends
the transfer-level dict on its own.
-/

/-- The `transfer_info` dict (lines 110-128), three guarded fields. -/
def movementInfoE (t : JValue) : Except PyError Row :=
  match tryKT (t.subscript "date") with
  | .error e => .error e
  | .ok movement_date =>
  match tryKT (subscript2 t "origin" "name") with
  | .error e => .error e
  | .ok warehouse_origin =>
  match tryKT (subscript2 t "destination" "name") with
  | .error e => .error e
  | .ok warehouse_destination =>
    .ok [("movement_date", movement_date),
         ("warehouse_origin", warehouse_origin),
         ("warehouse_destination", warehouse_destination)]

/-- What `transfer_info` evaluates to: the guards only ever see
KeyError/TypeError, so each field is the recovered subscript value. -/
def movementInfoRow (t : JValue) : Row :=
  [("movement_date", orNull (t.subscript "date")),
   ("warehouse_origin", orNull (subscript2 t "origin" "name")),
   ("warehouse_destination", orNull (subscript2 t "destination" "name"))]

/-- One item row (lines 135-153): a copy of `transfer_info` plus three
guarded item fields. -/
def movementItemRowE (info : Row) (item : JValue) : Except PyError Row :=
  match tryKT (item.subscript "id") with
  | .error e => .error e
  | .ok item_id =>
  match tryKT (item.subscript "name") with
  | .error e => .error e
  | .ok item_name =>
  match tryKT (item.subscript "quantity") with
  | .error e => .error e
  | .ok quantity =>
    .ok (info ++ [("item_id", item_id),
                  ("item_name", item_name),
                  ("quantity", quantity)])

/-- The recovered value of one movement item row. -/
def movementItemRow (info : Row) (item : JValue) : Row :=
  info ++ [("item_id", orNull (item.subscript "id")),
           ("item_name", orNull (item.subscript "name")),
           ("quantity", orNull (item.subscript "quantity"))]

/-- The item loop; the guarded per-item fields never raise, so the loop
only reports an error that in fact cannot occur. -/
def movementItemsLoop (info : Row) : List JValue → Except PyError (List Row)
  | [] => .ok []
  | item :: rest =>
    match movementItemRowE info item with
    | .error e => .error e
    | .ok row =>
      match movementItemsLoop info rest with
      | .error e => .error e
      | .ok rs => .ok (row :: rs)

/-- `items = transfer["items"]` followed by entering the `for` loop —
the two expressions guarded by the outer `try/except (KeyError,
TypeError)` of lines 131-157. -/
def movementItems (t : JValue) : Except PyError (List JValue) :=
  match t.subscript "items" with
  | .error e => .error e
  | .ok its => its.iterate

/-- The rows one transfer contributes.  A KeyError/TypeError from the
items access (missing key, non-iterable value) fires the handler of
line 155, which appends `transfer_info` alone; the guarded loop body
cannot raise, so the handler can only fire before the first item row. -/
def movementTransferRows (t : JValue) : Except PyError (List Row) :=
  match movementInfoE t with
  | .error e => .error e
  | .ok info =>
    match movementItems t with
    | .ok items => movementItemsLoop info items
    | .error e => if caughtKT e then .ok [info] else .error e

/-- The recovered value of one transfer's rows. -/
def movementRowsTotal (t : JValue) : List Row :=
  match movementItems t with
  | .ok items => items.map (movementItemRow (movementInfoRow t))
  | .error _ => [movementInfoRow t]

/-- Accumulating loop of `process_warehouse_transfers_data`; the
per-transfer body has no catch-all, so an uncaught exception would
abort the whole batch. -/
def processMovementsGo : List JValue → List Row → Except PyError (List Row)
  | [], acc => .ok acc
  | t :: rest, acc =>
    match movementTransferRows t with
    | .ok rows => processMovementsGo rest (acc ++ rows)
    | .error e => .error e

/-- `process_warehouse_transfers_data(transfers)` (lines 94-160). -/
def process_warehouse_transfers_data (transfers : List JValue) :
    Except PyError (List Row) :=
  processMovementsGo transfers []

/-!
Inventory normalizer: `process_items_data` of
src/scraping/download_query_inventory.py, lines 94-145.  Six fields,
each in its own try block; the photo field also catches IndexError.
One row is appended per record unconditionally.
-/

/-- `item["images"][0]["url"]` (line 139). -/
def photoChain (item : JValue) : Except PyError JValue :=
  match item.subscript "images" with
  | .error e => .error e
  | .ok imgs =>
    match imgs.index 0 with
    | .error e => .error e
    | .ok first => first.subscript "url"

/-- One inventory row (lines 110-142). -/
def itemRowE (item : JValue) : Except PyError Row :=
  match tryKT (item.subscript "id") with
  | .error e => .error e
  | .ok idv =>
  match tryKT (item.subscript "name") with
  | .error e => .error e
  | .ok namev =>
  match tryKT (subscript2 item "inventory" "initialQuantity") with
  | .error e => .error e
  | .ok iq =>
  match tryKT (subscript2 item "inventory" "initialQuantityDate") with
  | .error e => .error e
  | .ok iqd =>
  match tryKT (subscript2 item "inventory" "availableQuantity") with
  | .error e => .error e
  | .ok fa =>
  match tryKTI (photoChain item) with
  | .error e => .error e
  | .ok ph =>
    .ok [("id", idv),
         ("name", namev),
         ("initial_quantity", iq),
         ("initial_quantity_date", iqd),
         ("final_available_quantity", fa),
         ("photo_url", ph)]

/-- The recovered value of one inventory row. -/
def inventoryRow (item : JValue) : Row :=
  [("id", orNull (item.subscript "id")),
   ("name", orNull (item.subscript "name")),
   ("initial_quantity", orNull (subscript2 item "inventory" "initialQuantity")),
   ("initial_quantity_date", orNull (subscript2 item "inventory" "initialQuantityDate")),
   ("final_available_quantity", orNull (subscript2 item "inventory" "availableQuantity")),
   ("photo_url", orNull (photoChain item))]

/-- The six inventory column names, in output order. -/
def inventoryCols : List String :=
  ["id", "name", "initial_quantity", "initial_quantity_date",
   "final_available_quantity", "photo_url"]

/-- Accumulating loop of `process_items_data`; no catch-all around the
record body. -/
def processItemsGo : List JValue → List Row → Except PyError (List Row)
  | [], acc => .ok acc
  | item :: rest, acc =>
    match itemRowE item with
    | .ok row => processItemsGo rest (acc ++ [row])
    | .error e => .error e

/-- `process_items_data(items)` (lines 94-145). -/
def process_items_data (items : List JValue) : Except PyError (List Row) :=
  processItemsGo items []

/-!
Incremental CSV sink and pagination loop, from
src/scraping/download_query_purchases.py: `save_batch_to_csv`
(lines 192-210) and `fetch_purchase_orders_data` (lines 31-91).
-/

/-- One line of the CSV artifact: the header row or one data row. -/
inductive CsvLine where
  | headerLine
  | dataLine (r : Row)

/-- Whether a line is the header. -/
def isHeader : CsvLine → Bool
  | .headerLine => true
  | .dataLine _ => false

/-- Number of header lines in the artifact. -/
def countHeaders (art : List CsvLine) : Nat :=
  art.countP isHeader

/-- `save_batch_to_csv(data, filename, is_first_batch)`: mode 'w' with a
header row when `is_first_batch`, else mode 'a' without one
(`df.to_csv(filename, mode=mode, header=header, index=False)`). -/
def save_batch_to_csv (art : List CsvLine) (rows : List Row)
    (isFirstBatch : Bool) : List CsvLine :=
  if isFirstBatch then CsvLine.headerLine :: rows.map CsvLine.dataLine
  else art ++ rows.map CsvLine.dataLine

/-- The page the API serves at a given offset: `params = {"start":
start}` returns up to `BATCH_SIZE` records from that position of the
underlying record sequence. -/
def pageAt (records : List JValue) (start B : Nat) : List JValue :=
  (records.drop start).take B

/-- Result of one run of the fetch loop: number of GET requests issued,
the records accumulated into `all_orders`, and the artifact lines. -/
structure FetchRun where
  calls : Nat
  fetched : List JValue
  artifact : List CsvLine

/-- The `while True` loop of `fetch_purchase_orders_data`: fetch a
page, break if it is empty, process it, save a non-empty processed
batch (header exactly when `start == 0`), break if the page was short,
else advance `start` by `BATCH_SIZE`.  The loop always terminates on a
list-backed server, so the fuel (one unit per request) is never
exhausted when it starts at `records.length + 1`. -/
def fetchPagesFuel (records : List JValue) (B : Nat) :
    Nat → Nat → List CsvLine → FetchRun
  | 0, _, art => ⟨0, [], art⟩
  | fuel + 1, start, art =>
    let batch := pageAt records start B
    if batch.isEmpty then ⟨1, [], art⟩
    else
      let processed := process_purchase_orders_data batch
      let art1 :=
        if processed.isEmpty then art
        else save_batch_to_csv art processed (start == 0)
      if batch.length < B then ⟨1, batch, art1⟩
      else
        let r := fetchPagesFuel records B fuel (start + B) art1
        ⟨r.calls + 1, batch ++ r.fetched, r.artifact⟩

/-- `fetch_purchase_orders_data()` (lines 31-91) against a server
holding `records`, with `BATCH_SIZE` generalized to the parameter `B`
(the source fixes it to 30). -/
def fetch_purchase_orders_data (records : List JValue) (B : Nat) : FetchRun :=
  fetchPagesFuel records B (records.length + 1) 0 []

/-!
Warehouse loader, from src/GCP_uploads/upload_csv_to_bigquery.py:
`get_predefined_schema` (lines 103-148), `infer_schema_from_csv`
(lines 68-101), `create_dataset_if_not_exists` (lines 49-66) and
`upload_csv_to_table` (lines 150-245).
-/

/-- One BigQuery schema field: (column name, field type). -/
structure SchemaField where
  name : String
  fieldType : String
deriving DecidableEq

/-- The registered schema of the `warehouse_movements` table. -/
def movementsSchema : List SchemaField :=
  [⟨"movement_date", "DATE"⟩, ⟨"warehouse_origin", "STRING"⟩,
   ⟨"warehouse_destination", "STRING"⟩, ⟨"item_id", "INTEGER"⟩,
   ⟨"item_name", "STRING"⟩, ⟨"quantity", "INTEGER"⟩]

/-- The registered schema of the `inventory` table. -/
def inventorySchema : List SchemaField :=
  [⟨"item_id", "INTEGER"⟩, ⟨"item_name", "STRING"⟩, ⟨"warehouse", "STRING"⟩,
   ⟨"quantity", "INTEGER"⟩, ⟨"last_updated", "TIMESTAMP"⟩]

/-- The registered schema of the `sales` table. -/
def salesSchema : List SchemaField :=
  [⟨"sale_date", "DATE"⟩, ⟨"item_id", "INTEGER"⟩, ⟨"item_name", "STRING"⟩,
   ⟨"quantity", "INTEGER"⟩, ⟨"unit_price", "FLOAT"⟩, ⟨"total_amount", "FLOAT"⟩]

/-- The registered schema of the `purchases` table. -/
def purchasesSchema : List SchemaField :=
  [⟨"purchase_date", "DATE"⟩, ⟨"item_id", "INTEGER"⟩, ⟨"item_name", "STRING"⟩,
   ⟨"quantity", "INTEGER"⟩, ⟨"unit_cost", "FLOAT"⟩, ⟨"total_cost", "FLOAT"⟩,
   ⟨"supplier", "STRING"⟩]

/-- The static `schemas` dict of `get_predefined_schema`. -/
def schemasRegistry : List (String × List SchemaField) :=
  [("warehouse_movements", movementsSchema),
   ("inventory", inventorySchema),
   ("sales", salesSchema),
   ("purchases", purchasesSchema)]

/-- Generic association-list lookup (Python `dict.get`). -/
def lookupAssoc {α : Type} : List (String × α) → String → Option α
  | [], _ => none
  | (k, v) :: rest, key => if k = key then some v else lookupAssoc rest key

/-- Python `table_name.lower()` (the table names are ASCII, where
`str.lower` is the character-wise lowering). -/
def pyLower (s : String) : String :=
  String.mk (s.data.map Char.toLower)

/-- `get_predefined_schema(table_name)`: `schemas.get(table_name.lower())`. -/
def get_predefined_schema (table_name : String) : Option (List SchemaField) :=
  lookupAssoc schemasRegistry (pyLower table_name)

/-- A pandas column dtype, as far as the inference of
`infer_schema_from_csv` distinguishes them. -/
inductive Dtype where
  | intType
  | floatType
  | boolType
  | datetimeType
  | objType
deriving DecidableEq

/-- The dtype-to-BigQuery-type ladder of lines 85-94. -/
def dtypeFieldType : Dtype → String
  | .intType => "INTEGER"
  | .floatType => "FLOAT"
  | .boolType => "BOOLEAN"
  | .datetimeType => "TIMESTAMP"
  | .objType => "STRING"

/-- `infer_schema_from_csv(csv_file)`: map the sampled columns' dtypes;
a read error (sample unavailable) returns the empty list (line 101). -/
def infer_schema_from_csv (sample : Option (List (String × Dtype))) :
    List SchemaField :=
  match sample with
  | none => []
  | some cols => cols.map (fun c => ⟨c.1, dtypeFieldType c.2⟩)

/-- Python `table_id.split('.')` (same as `str.split` with a one-char
separator: no collapsing, empty string gives one empty segment). -/
def splitOnDotAux : List Char → List Char → List (List Char)
  | [], cur => [cur.reverse]
  | c :: rest, cur =>
    if c = '.' then cur.reverse :: splitOnDotAux rest []
    else splitOnDotAux rest (c :: cur)

/-- `table_id.split('.')` as a list of segments. -/
def pySplitDot (s : String) : List String :=
  (splitOnDotAux s.data []).map (fun cs => String.mk cs)

/-- Warehouse-side state the loader touches: whether the destination
dataset exists and how many rows the destination table holds. -/
structure Warehouse where
  datasetExists : Bool
  tableRows : Nat

/-- The network requests `upload_csv_to_table` can issue, in order. -/
inductive NetCall where
  | getDataset
  | createDataset
  | loadJob
  | getTable
deriving DecidableEq

/-- `create_dataset_if_not_exists`: a `get_dataset` probe, then a
`create_dataset` only when the probe raised NotFound. -/
def create_dataset_if_not_exists (wh : Warehouse) : Warehouse × List NetCall :=
  if wh.datasetExists then (wh, [NetCall.getDataset])
  else ({ wh with datasetExists := true },
        [NetCall.getDataset, NetCall.createDataset])

/-- The `LoadJobConfig` of lines 209-217. -/
structure JobConfig where
  skipLeadingRows : Nat
  fieldDelimiter : String
  encoding : String
  writeDisposition : String
  autodetect : Bool
  schema : Option (List SchemaField)

/-- Line 216: `schema=schema if schema else None` — an empty (falsy)
schema list is passed as None. -/
def pySchemaOrNone : Option (List SchemaField) → Option (List SchemaField)
  | none => none
  | some l => if l.isEmpty then none else some l

/-- The schema-determination block of lines 198-206.  `none` is the
early `return False` of line 206 (no usable schema, auto-detect off);
`some s?` is the schema variable afterwards (`s? = none` leaves the
choice to BigQuery auto-detect). -/
def resolveSchemaStage (table_name : String)
    (schemaArg : Option (List SchemaField)) (auto_detect_schema : Bool)
    (sample : Option (List (String × Dtype))) :
    Option (Option (List SchemaField)) :=
  match schemaArg with
  | some s => some (some s)
  | none =>
    match get_predefined_schema table_name with
    | some s => some (some s)
    | none =>
      if auto_detect_schema then some none
      else
        let inferred := infer_schema_from_csv sample
        if inferred.isEmpty then none else some (some inferred)

/-- How `upload_csv_to_table` can end. -/
inductive UploadOutcome where
  | fileNotFound
  | invalidIdentifier
  | schemaFailure
  | loadFailed
  | ok (numRows : Nat)
deriving DecidableEq

/-- What one call to `upload_csv_to_table` did: its returned outcome,
the network requests it issued, the warehouse state afterwards and the
job configuration it submitted (if it got that far). -/
structure UploadResult where
  outcome : UploadOutcome
  netCalls : List NetCall
  wh : Warehouse
  job : Option JobConfig

/-- Modelled from the spec: the warehouse-side execution of a load job
is BigQuery's, not part of src/; per the write-disposition contract,
`WRITE_APPEND` adds the artifact's rows to the table, `WRITE_TRUNCATE`
replaces all existing rows, and `WRITE_EMPTY` fails when the table is
already non-empty, leaving it unchanged.  `none` is a failed job. -/
def runLoadJob (writeDisposition : String) (tableRows artifactRows : Nat) :
    Option Nat :=
  if writeDisposition = "WRITE_APPEND" then some (tableRows + artifactRows)
  else if writeDisposition = "WRITE_TRUNCATE" then some artifactRows
  else if writeDisposition = "WRITE_EMPTY" then
    (if tableRows = 0 then some artifactRows else none)
  else none

/-- `upload_csv_to_table` (lines 150-245): file-existence check, table
id validation, dataset ensure, schema determination, job submission,
wait, and final `get_table` row count.  `fileOk` is the
`Path(csv_file).exists()` probe; `artifactRows` the number of data rows
of the CSV; `sample` what schema inference would read from it. -/
def upload_csv_to_table (wh : Warehouse) (fileOk : Bool) (artifactRows : Nat)
    (sample : Option (List (String × Dtype))) (table_id : String)
    (write_disposition : String) (schemaArg : Option (List SchemaField))
    (auto_detect_schema : Bool) (skip_leading_rows : Nat)
    (field_delimiter encoding : String) : UploadResult :=
  if fileOk = false then ⟨.fileNotFound, [], wh, none⟩
  else if (pySplitDot table_id).length ≠ 3 then ⟨.invalidIdentifier, [], wh, none⟩
  else
    let table_name := (pySplitDot table_id).getD 2 ""
    let ds := create_dataset_if_not_exists wh
    match resolveSchemaStage table_name schemaArg auto_detect_schema sample with
    | none => ⟨.schemaFailure, ds.2, ds.1, none⟩
    | some schemaOpt =>
      let job : JobConfig :=
        ⟨skip_leading_rows, field_delimiter, encoding, write_disposition,
         auto_detect_schema && schemaOpt.isNone, pySchemaOrNone schemaOpt⟩
      match runLoadJob write_disposition ds.1.tableRows artifactRows with
      | some newRows =>
        ⟨.ok newRows, ds.2 ++ [NetCall.loadJob, NetCall.getTable],
         { ds.1 with tableRows := newRows }, some job⟩
      | none =>
        ⟨.loadFailed, ds.2 ++ [NetCall.loadJob], ds.1, some job⟩

/-!
Batch coordinator: `batch_upload_csvs` of src/scraping/batch_upload.py,
lines 16-104.
-/

/-- One entry of `TABLE_MAPPING` as the coordinator sees it: whether the
CSV file exists, and what `upload_csv_to_table` did for it — `some b`
its boolean return, `none` an exception escaping the call (caught by
the per-file `except` of line 78). -/
structure EntityUpload where
  fileFound : Bool
  result : Option Bool

/-- Whether the coordinator counts the entity as a successful upload. -/
def entitySucceeded (e : EntityUpload) : Bool :=
  e.fileFound && (match e.result with | some true => true | _ => false)

/-- One iteration of the `for csv_file, table_name in
TABLE_MAPPING.items()` loop: always bumps `total_files`, skips missing
files, counts a success on `True`, and swallows exceptions. -/
def batchStep (acc : Nat × Nat) (e : EntityUpload) : Nat × Nat :=
  if e.fileFound = false then (acc.1, acc.2 + 1)
  else
    match e.result with
    | some true => (acc.1 + 1, acc.2 + 1)
    | some false => (acc.1, acc.2 + 1)
    | none => (acc.1, acc.2 + 1)

/-- `batch_upload_csvs()`: the final status is `True` exactly when
`success_count > 0` (lines 89-104).  Returns (status, success_count,
total_files). -/
def batch_upload_csvs (entities : List EntityUpload) : Bool × Nat × Nat :=
  let st := entities.foldl batchStep (0, 0)
  (decide (0 < st.1), st.1, st.2)

/-!
Concrete API records used as test inputs in the theorems below.
-/

/-- A purchase order with an empty nested item list. -/
def orderNoItems : JValue :=
  .obj [("id", .num 1), ("purchases", .obj [("items", .arr [])])]

/-- A purchase order with one well-formed nested item. -/
def orderOneItem : JValue :=
  .obj [("id", .num 2),
        ("deliveryDate", .str "2025-08-01"),
        ("warehouse", .obj [("name", .str "Central")]),
        ("purchases",
          .obj [("items",
            .arr [.obj [("id", .num 9), ("name", .str "Widget"),
                        ("price", .num 10), ("quantity", .num 3)]])])]

/-- An invoice whose `warehouse` field is an explicit JSON null: the
key is present, so `invoice.get("warehouse", {})` returns None and the
chained `.get("name", "Unknown")` raises AttributeError. -/
def invoiceNullWarehouse : JValue :=
  .obj [("id", .num 1), ("date", .str "2025-08-02"),
        ("warehouse", .null),
        ("items", .arr [.obj [("id", .num 5)]])]

/-- A perfectly well-formed invoice with one item. -/
def invoiceGood : JValue :=
  .obj [("id", .num 7), ("date", .str "2025-08-03"),
        ("warehouse", .obj [("name", .str "North")]),
        ("items", .arr [.obj [("id", .num 11), ("name", .str "Bolt"),
                              ("quantity", .num 4)]])]

/-- The row `invoiceGood` normalizes to. -/
def invoiceGoodRow : Row :=
  [("factura_id", .num 7), ("fecha_venta", .str "2025-08-03"),
   ("item_id", .num 11), ("item_name", .str "Bolt"),
   ("item_quantity", .num 4), ("warehouse_name", .str "North")]

/-- A warehouse transfer with no `items` key at all. -/
def transferNoItemsKey : JValue :=
  .obj [("date", .str "2025-08-04")]

/-- A warehouse transfer with one item. -/
def transferOneItem : JValue :=
  .obj [("date", .str "2025-08-05"),
        ("origin", .obj [("name", .str "A")]),
        ("destination", .obj [("name", .str "B")]),
        ("items", .arr [.obj [("id", .num 21), ("name", .str "Crate"),
                              ("quantity", .num 6)]])]

/-- The single item of `transferOneItem`. -/
def transferOneItemItem : JValue :=
  .obj [("id", .num 21), ("name", .str "Crate"), ("quantity", .num 6)]

/-- An inventory record with full nesting. -/
def inventoryExample : JValue :=
  .obj [("id", .num 31), ("name", .str "Gear"),
        ("inventory", .obj [("initialQuantity", .num 5),
                            ("initialQuantityDate", .str "2025-01-01"),
                            ("availableQuantity", .num 2)]),
        ("images", .arr [.obj [("url", .str "http://x/y.png")]])]

/-!
Lemma layer: which exceptions each access can raise, and what the
guarded blocks therefore compute.
-/

theorem tryFilter_eq_ok (caught : PyError → Bool) (body : Except PyError JValue)
    (h : ∀ e, body = .error e → caught e = true) :
    tryFilter caught body .null = .ok (orNull body) := by
  cases body with
  | ok v => rfl
  | error e => simp [tryFilter, orNull, h e rfl]

theorem subscript_err_KT (v : JValue) (k : String) :
    ∀ e, v.subscript k = .error e → caughtKT e = true := by
  intro e he
  cases v with
  | obj fs =>
    unfold JValue.subscript at he
    cases hl : lookupField fs k with
    | some w => simp [hl] at he
    | none => simp only [hl] at he; cases he; rfl
  | null => cases he; rfl
  | num n => cases he; rfl
  | str s => cases he; rfl
  | arr xs => cases he; rfl

theorem subscript2_err_KT (v : JValue) (k1 k2 : String) :
    ∀ e, subscript2 v k1 k2 = .error e → caughtKT e = true := by
  intro e he
  unfold subscript2 at he
  cases h1 : v.subscript k1 with
  | error e1 => simp only [h1] at he; cases he; exact subscript_err_KT v k1 e h1
  | ok w => simp only [h1] at he; exact subscript_err_KT w k2 e he

theorem iterate_err_KT (v : JValue) :
    ∀ e, v.iterate = .error e → caughtKT e = true := by
  intro e he
  cases v with
  | null => cases he; rfl
  | num n => cases he; rfl
  | str s => simp [JValue.iterate] at he
  | arr xs => simp [JValue.iterate] at he
  | obj fs => simp [JValue.iterate] at he

theorem caughtKT_le_KTI (e : PyError) (h : caughtKT e = true) :
    caughtKTI e = true := by
  cases e <;> simp_all [caughtKT, caughtKTI]

theorem index_err_KTI (v : JValue) (i : Nat) :
    ∀ e, v.index i = .error e → caughtKTI e = true := by
  intro e he
  cases v with
  | null => cases he; rfl
  | num n => cases he; rfl
  | obj fs => cases he; rfl
  | arr xs =>
    unfold JValue.index at he
    cases hl : xs[i]? with
    | some w => simp [hl] at he
    | none => simp only [hl] at he; cases he; rfl
  | str s =>
    unfold JValue.index at he
    cases hl : s.data[i]? with
    | some w => simp [hl] at he
    | none => simp only [hl] at he; cases he; rfl

theorem photoChain_err_KTI (item : JValue) :
    ∀ e, photoChain item = .error e → caughtKTI e = true := by
  intro e he
  unfold photoChain at he
  cases h1 : item.subscript "images" with
  | error e1 =>
    simp only [h1] at he; cases he
    exact caughtKT_le_KTI e (subscript_err_KT item "images" e h1)
  | ok imgs =>
    simp only [h1] at he
    cases h2 : imgs.index 0 with
    | error e2 => simp only [h2] at he; cases he; exact index_err_KTI imgs 0 e h2
    | ok first =>
      simp only [h2] at he
      exact caughtKT_le_KTI e (subscript_err_KT first "url" e he)

/-- Shorthand: a `(KeyError, TypeError)` guard around a plain subscript
always succeeds with the recovered value. -/
theorem tryKT_subscript (v : JValue) (k : String) :
    tryKT (v.subscript k) = .ok (orNull (v.subscript k)) :=
  tryFilter_eq_ok _ _ (subscript_err_KT v k)

/-- Same for a two-level subscript chain. -/
theorem tryKT_subscript2 (v : JValue) (k1 k2 : String) :
    tryKT (subscript2 v k1 k2) = .ok (orNull (subscript2 v k1 k2)) :=
  tryFilter_eq_ok _ _ (subscript2_err_KT v k1 k2)

/-- The transfer-level dict always computes, fields recovered to null. -/
theorem movementInfoE_eq (t : JValue) :
    movementInfoE t = .ok (movementInfoRow t) := by
  unfold movementInfoE tryKT
  rw [tryFilter_eq_ok _ _ (subscript_err_KT t "date"),
      tryFilter_eq_ok _ _ (subscript2_err_KT t "origin" "name"),
      tryFilter_eq_ok _ _ (subscript2_err_KT t "destination" "name")]
  rfl

/-- Each movement item row always computes. -/
theorem movementItemRowE_eq (info : Row) (item : JValue) :
    movementItemRowE info item = .ok (movementItemRow info item) := by
  unfold movementItemRowE tryKT
  rw [tryFilter_eq_ok _ _ (subscript_err_KT item "id"),
      tryFilter_eq_ok _ _ (subscript_err_KT item "name"),
      tryFilter_eq_ok _ _ (subscript_err_KT item "quantity")]
  rfl

/-- The movement item loop yields one row per item, in order. -/
theorem movementItemsLoop_eq (info : Row) (items : List JValue) :
    movementItemsLoop info items = .ok (items.map (movementItemRow info)) := by
  induction items with
  | nil => rfl
  | cons item rest ih =>
    unfold movementItemsLoop
    rw [movementItemRowE_eq, ih]
    rfl

/-- The guarded items access only raises KeyError/TypeError. -/
theorem movementItems_err_KT (t : JValue) :
    ∀ e, movementItems t = .error e → caughtKT e = true := by
  intro e he
  unfold movementItems at he
  cases h1 : t.subscript "items" with
  | error e1 => simp only [h1] at he; cases he; exact subscript_err_KT t "items" e h1
  | ok its => simp only [h1] at he; exact iterate_err_KT its e he

/-- One transfer always contributes its recovered rows. -/
theorem movementTransferRows_eq (t : JValue) :
    movementTransferRows t = .ok (movementRowsTotal t) := by
  unfold movementTransferRows movementRowsTotal
  rw [movementInfoE_eq]
  cases h1 : movementItems t with
  | ok items => exact movementItemsLoop_eq _ items
  | error e => simp [movementItems_err_KT t e h1]

/-- The movements batch loop is total and concatenates the records'
recovered rows after the accumulator. -/
theorem processMovementsGo_eq (ts : List JValue) :
    ∀ acc, processMovementsGo ts acc =
      .ok (acc ++ ts.flatMap movementRowsTotal) := by
  induction ts with
  | nil => intro acc; simp [processMovementsGo]
  | cons t rest ih =>
    intro acc
    have hstep : processMovementsGo (t :: rest) acc
        = processMovementsGo rest (acc ++ movementRowsTotal t) := by
      conv_lhs => unfold processMovementsGo
      rw [movementTransferRows_eq]
    rw [hstep, ih]
    simp

/-- `process_warehouse_transfers_data` is total: one recovered row
block per transfer, in order. -/
theorem process_warehouse_transfers_data_eq (ts : List JValue) :
    process_warehouse_transfers_data ts = .ok (ts.flatMap movementRowsTotal) := by
  unfold process_warehouse_transfers_data
  rw [processMovementsGo_eq]
  simp

/-- Each inventory row always computes, fields recovered to null. -/
theorem itemRowE_eq (item : JValue) : itemRowE item = .ok (inventoryRow item) := by
  unfold itemRowE tryKT tryKTI
  rw [tryFilter_eq_ok _ _ (subscript_err_KT item "id"),
      tryFilter_eq_ok _ _ (subscript_err_KT item "name"),
      tryFilter_eq_ok _ _ (subscript2_err_KT item "inventory" "initialQuantity"),
      tryFilter_eq_ok _ _ (subscript2_err_KT item "inventory" "initialQuantityDate"),
      tryFilter_eq_ok _ _ (subscript2_err_KT item "inventory" "availableQuantity"),
      tryFilter_eq_ok _ _ (photoChain_err_KTI item)]
  rfl

/-- The inventory batch loop is total: exactly one row per record. -/
theorem processItemsGo_eq (items : List JValue) :
    ∀ acc, processItemsGo items acc = .ok (acc ++ items.map inventoryRow) := by
  induction items with
  | nil => intro acc; simp [processItemsGo]
  | cons item rest ih =>
    intro acc
    have hstep : processItemsGo (item :: rest) acc
        = processItemsGo rest (acc ++ [inventoryRow item]) := by
      conv_lhs => unfold processItemsGo
      rw [itemRowE_eq]
    rw [hstep, ih]
    simp

/-- `process_items_data` is total: one recovered row per record. -/
theorem process_items_data_eq (items : List JValue) :
    process_items_data items = .ok (items.map inventoryRow) := by
  unfold process_items_data
  rw [processItemsGo_eq]
  simp

/-- On a dict item, every field of the purchases item row computes:
`item.get` never raises and the guards pass the values through. -/
theorem purchaseItemRow_obj (oid ddate wn : JValue)
    (fs : List (String × JValue)) :
    purchaseItemRow oid ddate wn (.obj fs) =
      .ok [("invoice_id", oid),
           ("added_inventory_date", ddate),
           ("provider_id", oid),
           ("warehouse_name", wn),
           ("price_provider", (lookupField fs "price").getD .null),
           ("quantity", (lookupField fs "quantity").getD .null),
           ("item_id", (lookupField fs "id").getD .null),
           ("item_name", (lookupField fs "name").getD .null)] := rfl

/-- When every nested item is a dict, the purchases item loop emits one
row per item and raises nothing. -/
theorem purchaseItemsLoop_allObj (oid ddate wn : JValue)
    (items : List JValue) (h : ∀ x ∈ items, x.isObj = true) :
    (purchaseItemsLoop oid ddate wn items).1.length = items.length := by
  induction items with
  | nil => rfl
  | cons item rest ih =>
    have hobj : item.isObj = true := h item (List.mem_cons_self item rest)
    have hr := ih (fun x hx => h x (List.mem_cons_of_mem item hx))
    cases item with
    | obj fs =>
      unfold purchaseItemsLoop
      rw [purchaseItemRow_obj]
      simpa using hr
    | null => simp [JValue.isObj] at hobj
    | num n => simp [JValue.isObj] at hobj
    | str s => simp [JValue.isObj] at hobj
    | arr xs => simp [JValue.isObj] at hobj

/-- The purchases batch loop concatenates each order's surviving rows
after the accumulator: one order's failure never touches another's
rows. -/
theorem processPurchasesGo_eq (orders : List JValue) :
    ∀ acc, processPurchasesGo orders acc =
      acc ++ orders.flatMap purchaseOrderRows := by
  induction orders with
  | nil => intro acc; simp [processPurchasesGo]
  | cons o rest ih =>
    intro acc
    unfold processPurchasesGo
    rw [ih]
    simp

theorem countHeaders_append (a b : List CsvLine) :
    countHeaders (a ++ b) = countHeaders a + countHeaders b :=
  List.countP_append _ a b

theorem countHeaders_dataLines (rows : List Row) :
    countHeaders (rows.map CsvLine.dataLine) = 0 := by
  induction rows with
  | nil => rfl
  | cons r rest ih => simp [countHeaders, List.countP_cons, isHeader] at ih ⊢

theorem pageAt_length (records : List JValue) (start B : Nat) :
    (pageAt records start B).length = min B (records.length - start) := by
  simp [pageAt]

/-- The pagination loop issues one request per full page plus the final
short-or-empty one, and collects every record from the given offset on,
provided the fuel covers the page count. -/
theorem fetchPagesFuel_run (records : List JValue) (B : Nat) (hB : 0 < B) :
    ∀ fuel start art,
      (records.length - start) / B + 1 ≤ fuel →
      (fetchPagesFuel records B fuel start art).calls
          = (records.length - start) / B + 1
        ∧ (fetchPagesFuel records B fuel start art).fetched
          = records.drop start := by
  intro fuel
  induction fuel with
  | zero => intro start art hf; exact absurd hf (Nat.not_succ_le_zero _)
  | succ fuel ih =>
    intro start art hf
    have hlen := pageAt_length records start B
    by_cases hempty : (pageAt records start B).isEmpty = true
    · have h0 : (pageAt records start B).length = 0 := by
        rw [List.isEmpty_iff] at hempty
        rw [hempty]
        rfl
      rw [hlen] at h0
      have hrs : records.length - start = 0 := by omega
      have hdrop : records.drop start = [] := List.drop_eq_nil_of_le (by omega)
      simp only [fetchPagesFuel, hempty, if_true]
      exact ⟨by simp [hrs], hdrop.symm⟩
    · rcases Nat.lt_or_ge (records.length - start) B with hx | hx
      · -- the page is short: the loop stops after this request
        have hshort : (pageAt records start B).length < B := by
          rw [hlen, Nat.min_eq_right (Nat.le_of_lt hx)]
          exact hx
        have hdiv : (records.length - start) / B = 0 := Nat.div_eq_of_lt hx
        have htake : pageAt records start B = records.drop start := by
          unfold pageAt
          exact List.take_of_length_le (by simp; omega)
        constructor
        · simp only [fetchPagesFuel]
          rw [if_neg hempty, if_pos hshort]
          simp [hdiv]
        · simp only [fetchPagesFuel]
          rw [if_neg hempty, if_pos hshort]
          exact htake
      · -- a full page: recurse at the next offset
        have hfull : ¬(pageAt records start B).length < B := by
          rw [hlen, Nat.min_eq_left hx]
          omega
        have hdivstep : (records.length - start) / B
            = (records.length - (start + B)) / B + 1 := by
          have h1 : records.length - (start + B) + B = records.length - start := by
            omega
          rw [← h1, Nat.add_div_right _ hB]
        have hfuel' : (records.length - (start + B)) / B + 1 ≤ fuel := by omega
        obtain ⟨ihc, ihf⟩ := ih (start + B)
          (if (process_purchase_orders_data (pageAt records start B)).isEmpty then art
           else save_batch_to_csv art
             (process_purchase_orders_data (pageAt records start B)) (start == 0))
          hfuel'
        constructor
        · simp only [fetchPagesFuel]
          rw [if_neg hempty, if_neg hfull]
          simp only [ihc]
          omega
        · simp only [fetchPagesFuel]
          rw [if_neg hempty, if_neg hfull]
          simp only [ihf]
          unfold pageAt
          rw [show records.drop (start + B) = (records.drop start).drop B from
                (List.drop_drop B start records).symm ▸ rfl]
          exact List.take_append_drop B (records.drop start)

/-- From any non-zero offset on, the loop only ever appends data lines
to the artifact: the header test `start == 0` never fires again. -/
theorem fetchPagesFuel_artifact_append (records : List JValue) (B : Nat) :
    ∀ fuel start art, start ≠ 0 →
      ∃ tail, (fetchPagesFuel records B fuel start art).artifact = art ++ tail
        ∧ countHeaders tail = 0 := by
  intro fuel
  induction fuel with
  | zero => intro start art h; exact ⟨[], by simp [fetchPagesFuel], rfl⟩
  | succ fuel ih =>
    intro start art h
    by_cases hempty : (pageAt records start B).isEmpty = true
    · refine ⟨[], ?_, rfl⟩
      simp only [fetchPagesFuel, hempty, if_true]
      simp
    · have hbeq : (start == 0) = false := beq_eq_false_iff_ne.mpr h
      have hart1 : ∃ tail0,
          (if (process_purchase_orders_data (pageAt records start B)).isEmpty then art
           else save_batch_to_csv art
             (process_purchase_orders_data (pageAt records start B)) (start == 0))
            = art ++ tail0 ∧ countHeaders tail0 = 0 := by
        by_cases hproc :
            (process_purchase_orders_data (pageAt records start B)).isEmpty = true
        · exact ⟨[], by simp [hproc], rfl⟩
        · refine ⟨(process_purchase_orders_data (pageAt records start B)).map
            CsvLine.dataLine, ?_, countHeaders_dataLines _⟩
          simp [hproc, save_batch_to_csv, hbeq]
      obtain ⟨tail0, ht0, hc0⟩ := hart1
      by_cases hshort : (pageAt records start B).length < B
      · refine ⟨tail0, ?_, hc0⟩
        simp only [fetchPagesFuel]
        rw [if_neg hempty, if_pos hshort]
        exact ht0
      · obtain ⟨tail1, ht1, hc1⟩ := ih (start + B)
          (if (process_purchase_orders_data (pageAt records start B)).isEmpty then art
           else save_batch_to_csv art
             (process_purchase_orders_data (pageAt records start B)) (start == 0))
          (by omega)
        refine ⟨tail0 ++ tail1, ?_, ?_⟩
        · simp only [fetchPagesFuel]
          rw [if_neg hempty, if_neg hshort]
          simp only [ht1]
          rw [ht0]
          exact List.append_assoc art tail0 tail1
        · rw [countHeaders_append, hc0, hc1]

/-- The sales batch loop, under the assumption that every invoice body
either succeeds or raises a caught KeyError/TypeError. -/
theorem processInvoicesGo_eq (invs : List JValue)
    (h : invs.all salesBodyCaught = true) :
    ∀ acc, processInvoicesGo invs acc =
      .ok (acc ++ invs.flatMap salesRecordRows) := by
  induction invs with
  | nil => intro acc; simp [processInvoicesGo]
  | cons inv rest ih =>
    intro acc
    rw [List.all_cons, Bool.and_eq_true] at h
    have hrest := ih h.2
    have hone := h.1
    unfold processInvoicesGo
    unfold salesBodyCaught at hone
    cases hb : invoiceBody inv with
    | ok rows =>
      simp only [hb, hrest]
      simp [List.flatMap_cons, salesRecordRows, hb]
    | error e =>
      simp only [hb] at hone
      simp only [hb, hone, if_true, hrest]
      simp [List.flatMap_cons, salesRecordRows, hb]

/-!
Claim-level theorems.
-/

theorem countHeaders_header_cons (l : List CsvLine) :
    countHeaders (CsvLine.headerLine :: l) = countHeaders l + 1 := by
  simp [countHeaders, List.countP_cons, isHeader]

/-- C1 counterexample: a purchase order whose nested item list is empty
normalizes to zero rows, not to one parent-only row — the record is
lost, contradicting the claimed 1-row fallback. -/
theorem c1_zero_items_counterexample :
    process_purchase_orders_data [orderNoItems] = []
      ∧ (process_purchase_orders_data [orderNoItems]).length ≠ 1 :=
  ⟨rfl, by intro hx; rw [show process_purchase_orders_data [orderNoItems] = [] from rfl] at hx; cases hx⟩

/-- C1 (amended): a record with k well-formed nested items yields
exactly k rows; an empty item list yields 0 rows (for every normalizer
the record is then dropped); only the warehouse-transfers normalizer
has a 1-row fallback, and only when the `items` access itself raises
(missing key or non-iterable value), the fallback row carrying the
parent-level fields alone. -/
theorem c1_row_expansion_amended :
    (∀ (order oid ddate wn its : JValue) (xs : List JValue),
        order.subscript "id" = .ok oid →
        order.get "deliveryDate" .null = .ok ddate →
        purchaseWarehouseName order = .ok wn →
        purchaseResolvedItems order = .ok its →
        its.iterate = .ok xs →
        (∀ x ∈ xs, x.isObj = true) →
        (purchaseOrderRows order).length = xs.length)
    ∧ (∀ (t : JValue) (xs : List JValue),
        t.subscript "items" = .ok (.arr xs) →
        movementTransferRows t
          = .ok (xs.map (movementItemRow (movementInfoRow t))))
    ∧ (∀ (t : JValue) (e : PyError),
        movementItems t = .error e →
        movementTransferRows t = .ok [movementInfoRow t]) := by
  refine ⟨?_, ?_, ?_⟩
  · intro order oid ddate wn its xs h1 h2 h3 h4 h5 h6
    unfold purchaseOrderRows
    simp only [h1, h2, h3, h4, h5]
    exact purchaseItemsLoop_allObj oid ddate wn xs h6
  · intro t xs h
    rw [movementTransferRows_eq]
    unfold movementRowsTotal
    have hm : movementItems t = .ok xs := by
      unfold movementItems
      simp only [h]
      rfl
    rw [hm]
  · intro t e h
    rw [movementTransferRows_eq]
    unfold movementRowsTotal
    rw [h]

/-- C1 witness: the amended theorem applied to one concrete order with
one item, one transfer with one item, and one transfer without an
`items` key. -/
theorem c1_row_expansion_amended_witness :
    orderOneItem.subscript "id" = .ok (.num 2)
    ∧ transferOneItem.subscript "items" = .ok (.arr [transferOneItemItem])
    ∧ movementItems transferNoItemsKey = .error .keyError
    ∧ (purchaseOrderRows orderOneItem).length = 1
    ∧ movementTransferRows transferOneItem
        = .ok ([transferOneItemItem].map (movementItemRow (movementInfoRow transferOneItem)))
    ∧ movementTransferRows transferNoItemsKey
        = .ok [movementInfoRow transferNoItemsKey] := by
  refine ⟨rfl, rfl, rfl, ?_, ?_, ?_⟩
  · exact c1_row_expansion_amended.1 orderOneItem (.num 2) (.str "2025-08-01")
      (.str "Central")
      (.arr [.obj [("id", .num 9), ("name", .str "Widget"),
                   ("price", .num 10), ("quantity", .num 3)]])
      [.obj [("id", .num 9), ("name", .str "Widget"),
             ("price", .num 10), ("quantity", .num 3)]]
      rfl rfl rfl rfl rfl
      (by intro x hx; rw [List.mem_singleton] at hx; subst hx; rfl)
  · exact c1_row_expansion_amended.2.1 transferOneItem [transferOneItemItem] rfl
  · exact c1_row_expansion_amended.2.2 transferNoItemsKey .keyError rfl

/-- C2 counterexample: one invoice whose `warehouse` is an explicit
null makes the whole batch call raise AttributeError — the field
failure is fatal to the batch and run, and the well-formed second
invoice's rows are lost with it. -/
theorem c2_fatal_counterexample :
    process_invoice_data [invoiceNullWarehouse, invoiceGood]
      = .error .attributeError := rfl

/-- C2 (amended): isolation is per record, not per field.  In the
purchases normalizer a record-level failure drops (the rest of) that
record's rows only: the batch result is always the concatenation of the
per-record survivors and the run never aborts.  In the sales normalizer
the same holds only while every record body either succeeds or raises
KeyError/TypeError; any other exception (e.g. the AttributeError of a
null warehouse) aborts the whole batch. -/
theorem c2_isolation_amended :
    (∀ orders : List JValue,
        process_purchase_orders_data orders = orders.flatMap purchaseOrderRows)
    ∧ (∀ invoices : List JValue,
        invoices.all salesBodyCaught = true →
        process_invoice_data invoices
          = .ok (invoices.flatMap salesRecordRows)) := by
  constructor
  · intro orders
    unfold process_purchase_orders_data
    rw [processPurchasesGo_eq]
    simp
  · intro invoices h
    unfold process_invoice_data
    rw [processInvoicesGo_eq invoices h]
    simp

/-- C2 witness: the amended theorem applied to a concrete two-order
batch and to a concrete one-invoice batch. -/
theorem c2_isolation_amended_witness :
    process_purchase_orders_data [orderNoItems, orderOneItem]
        = [orderNoItems, orderOneItem].flatMap purchaseOrderRows
    ∧ [invoiceGood].all salesBodyCaught = true
    ∧ process_invoice_data [invoiceGood] = .ok [invoiceGoodRow] :=
  ⟨c2_isolation_amended.1 [orderNoItems, orderOneItem], rfl,
   c2_isolation_amended.2 [invoiceGood] rfl⟩

/-- C3 counterexample: one record with page size 1 (every page full
except the final empty one): the loop issues 2 requests, while
ceil(1 / 1) = 1 — the trailing full page costs one extra probe. -/
theorem c3_counterexample :
    (fetch_purchase_orders_data [JValue.obj []] 1).calls = 2
    ∧ (1 + 1 - 1) / 1 = 1
    ∧ (2 : Nat) ≠ 1 :=
  ⟨rfl, rfl, by decide⟩

/-- C3 (amended): for every record count N and page size B > 0 the loop
issues exactly N / B + 1 requests — that is ceil(N / B) when B does not
divide N, and one more (the empty-page probe) when it does — and it
fetches every record; the short-or-empty page remains the sole
termination signal. -/
theorem c3_call_count_amended (records : List JValue) (B : Nat) (hB : 0 < B) :
    (fetch_purchase_orders_data records B).calls = records.length / B + 1
    ∧ (fetch_purchase_orders_data records B).fetched = records := by
  have h := fetchPagesFuel_run records B hB (records.length + 1) 0 []
    (by simp only [Nat.sub_zero]; have := Nat.div_le_self records.length B; omega)
  unfold fetch_purchase_orders_data
  simpa using h

/-- C3 witness: one record, page size 2 (a genuinely short final page):
exactly one request, all records fetched. -/
theorem c3_call_count_amended_witness :
    (0 : Nat) < 2
    ∧ (fetch_purchase_orders_data [JValue.obj []] 2).calls = 1
    ∧ (fetch_purchase_orders_data [JValue.obj []] 2).fetched = [JValue.obj []] := by
  refine ⟨by decide, ?_, (c3_call_count_amended [JValue.obj []] 2 (by decide)).2⟩
  exact (c3_call_count_amended [JValue.obj []] 2 (by decide)).1

/-- C4 counterexample: when the first page normalizes to zero rows (all
its orders have empty item lists) and a later page has rows, the saved
batch is appended with `is_first_batch = False`: the artifact holds one
data line and no header at all. -/
theorem c4_headerless_counterexample :
    (fetch_purchase_orders_data [orderNoItems, orderOneItem] 1).artifact.length = 1
    ∧ countHeaders (fetch_purchase_orders_data [orderNoItems, orderOneItem] 1).artifact = 0 :=
  ⟨rfl, rfl⟩

/-- C4 (amended): whenever the page fetched at offset 0 yields at least
one normalized row, the artifact starts with the header, the header
appears exactly once, and every later batch is appended without one;
when the first page yields no rows, no header is ever written. -/
theorem c4_header_amended (records : List JValue) (B : Nat)
    (h : (process_purchase_orders_data (pageAt records 0 B)).isEmpty = false) :
    (fetch_purchase_orders_data records B).artifact.head? = some CsvLine.headerLine
    ∧ countHeaders (fetch_purchase_orders_data records B).artifact = 1 := by
  have hproc : ¬(process_purchase_orders_data (pageAt records 0 B)).isEmpty = true := by
    simp [h]
  have hbatchne : pageAt records 0 B ≠ [] := by
    intro hb
    rw [hb] at h
    exact absurd h (by rw [show process_purchase_orders_data [] = [] from rfl]; decide)
  have hbatch : ¬(pageAt records 0 B).isEmpty = true := by
    rw [List.isEmpty_iff]
    exact hbatchne
  have hart1 : (if (process_purchase_orders_data (pageAt records 0 B)).isEmpty
        then ([] : List CsvLine)
        else save_batch_to_csv []
          (process_purchase_orders_data (pageAt records 0 B)) (0 == 0))
      = CsvLine.headerLine
        :: (process_purchase_orders_data (pageAt records 0 B)).map CsvLine.dataLine := by
    rw [if_neg hproc]
    rfl
  unfold fetch_purchase_orders_data
  by_cases hshort : (pageAt records 0 B).length < B
  · constructor
    · simp only [fetchPagesFuel]
      rw [if_neg hbatch, if_pos hshort, hart1]
      rfl
    · simp only [fetchPagesFuel]
      rw [if_neg hbatch, if_pos hshort, hart1]
      show countHeaders (CsvLine.headerLine
        :: (process_purchase_orders_data (pageAt records 0 B)).map CsvLine.dataLine) = 1
      rw [countHeaders_header_cons, countHeaders_dataLines]
  · have hBpos : 0 < B := by
      rcases Nat.eq_zero_or_pos B with h0 | h0
      · exact absurd (by simp [pageAt, h0]) hbatchne
      · exact h0
    obtain ⟨tail, htail, hc⟩ := fetchPagesFuel_artifact_append records B
      records.length (0 + B)
      (if (process_purchase_orders_data (pageAt records 0 B)).isEmpty
        then ([] : List CsvLine)
        else save_batch_to_csv []
          (process_purchase_orders_data (pageAt records 0 B)) (0 == 0))
      (by omega)
    constructor
    · simp only [fetchPagesFuel]
      rw [if_neg hbatch, if_neg hshort]
      show (fetchPagesFuel records B records.length (0 + B)
        (if (process_purchase_orders_data (pageAt records 0 B)).isEmpty
          then ([] : List CsvLine)
          else save_batch_to_csv []
            (process_purchase_orders_data (pageAt records 0 B)) (0 == 0))).artifact.head?
        = some CsvLine.headerLine
      rw [htail, hart1]
      rfl
    · simp only [fetchPagesFuel]
      rw [if_neg hbatch, if_neg hshort]
      show countHeaders (fetchPagesFuel records B records.length (0 + B)
        (if (process_purchase_orders_data (pageAt records 0 B)).isEmpty
          then ([] : List CsvLine)
          else save_batch_to_csv []
            (process_purchase_orders_data (pageAt records 0 B)) (0 == 0))).artifact = 1
      rw [htail, countHeaders_append, hc, hart1, countHeaders_header_cons,
          countHeaders_dataLines]

/-- C4 witness: one page with one row-producing order: the artifact is
a header followed by the data row. -/
theorem c4_header_amended_witness :
    (process_purchase_orders_data (pageAt [orderOneItem] 0 1)).isEmpty = false
    ∧ (fetch_purchase_orders_data [orderOneItem] 1).artifact.head?
        = some CsvLine.headerLine
    ∧ countHeaders (fetch_purchase_orders_data [orderOneItem] 1).artifact = 1 :=
  ⟨rfl, (c4_header_amended [orderOneItem] 1 rfl).1,
   (c4_header_amended [orderOneItem] 1 rfl).2⟩

/-- C5 counterexample: one batch with a transfer lacking an `items` key
and a transfer with one item produces two rows with different column
sets — the fallback row omits the item-level columns instead of
nulling them. -/
theorem c5_column_set_counterexample :
    process_warehouse_transfers_data [transferNoItemsKey, transferOneItem]
      = .ok [movementInfoRow transferNoItemsKey,
             movementItemRow (movementInfoRow transferOneItem) transferOneItemItem]
    ∧ (movementInfoRow transferNoItemsKey).map Prod.fst
        ≠ (movementItemRow (movementInfoRow transferOneItem)
            transferOneItemItem).map Prod.fst :=
  ⟨rfl, by decide⟩

/-- C5 (amended): every inventory row has the fixed six-column set in
order; every movements row has either the six-column item layout or —
for the fallback row of a record whose `items` access raised — only the
three parent-level columns, so a run mixing both kinds has rows with
differing column sets. -/
theorem c5_columns_amended :
    (∀ (items : List JValue) (rows : List Row),
        process_items_data items = .ok rows →
        ∀ r ∈ rows, r.map Prod.fst = inventoryCols)
    ∧ (∀ (ts : List JValue) (rows : List Row),
        process_warehouse_transfers_data ts = .ok rows →
        ∀ r ∈ rows,
          r.map Prod.fst
              = ["movement_date", "warehouse_origin", "warehouse_destination",
                 "item_id", "item_name", "quantity"]
            ∨ r.map Prod.fst
              = ["movement_date", "warehouse_origin", "warehouse_destination"]) := by
  constructor
  · intro items rows h r hr
    rw [process_items_data_eq] at h
    injection h with h'
    subst h'
    rcases List.mem_map.mp hr with ⟨item, hmem, rfl⟩
    rfl
  · intro ts rows h r hr
    rw [process_warehouse_transfers_data_eq] at h
    injection h with h'
    subst h'
    rcases List.mem_flatMap.mp hr with ⟨t, hmem, hrt⟩
    unfold movementRowsTotal at hrt
    cases hmi : movementItems t with
    | ok items =>
      simp only [hmi] at hrt
      rcases List.mem_map.mp hrt with ⟨item, hitem, rfl⟩
      left
      rfl
    | error e =>
      simp only [hmi] at hrt
      rw [List.mem_singleton] at hrt
      subst hrt
      right
      rfl

/-- C5 witness: the amended theorem applied to one inventory record and
one well-formed transfer. -/
theorem c5_columns_amended_witness :
    process_items_data [inventoryExample] = .ok [inventoryRow inventoryExample]
    ∧ (inventoryRow inventoryExample).map Prod.fst = inventoryCols
    ∧ process_warehouse_transfers_data [transferOneItem]
        = .ok [movementItemRow (movementInfoRow transferOneItem) transferOneItemItem]
    ∧ ((movementItemRow (movementInfoRow transferOneItem)
          transferOneItemItem).map Prod.fst
            = ["movement_date", "warehouse_origin", "warehouse_destination",
               "item_id", "item_name", "quantity"]
        ∨ (movementItemRow (movementInfoRow transferOneItem)
            transferOneItemItem).map Prod.fst
            = ["movement_date", "warehouse_origin", "warehouse_destination"]) :=
  ⟨rfl,
   c5_columns_amended.1 [inventoryExample] [inventoryRow inventoryExample] rfl
     (inventoryRow inventoryExample) (List.mem_singleton.mpr rfl),
   rfl,
   c5_columns_amended.2 [transferOneItem]
     [movementItemRow (movementInfoRow transferOneItem) transferOneItemItem] rfl
     (movementItemRow (movementInfoRow transferOneItem) transferOneItemItem)
     (List.mem_singleton.mpr rfl)⟩

/-- Every schema registered in the static registry is non-empty. -/
theorem get_predefined_schema_ne_nil (t : String) (s : List SchemaField)
    (h : get_predefined_schema t = some s) : s.isEmpty = false := by
  simp only [get_predefined_schema, schemasRegistry, lookupAssoc] at h
  split_ifs at h
  all_goals injection h with h'
  all_goals (subst h'; rfl)

/-- C6: a registered table name wins schema resolution even with
auto-detect requested — the submitted job then carries the registered
schema with autodetect off — and no submitted job ever has both an
explicit schema and autodetect enabled. -/
theorem c6_schema_resolution :
    (∀ (wh : Warehouse) (artifactRows : Nat)
        (sample : Option (List (String × Dtype))) (table_id wd : String)
        (ad : Bool) (skip : Nat) (fd enc : String) (s : List SchemaField),
        (pySplitDot table_id).length = 3 →
        get_predefined_schema ((pySplitDot table_id).getD 2 "") = some s →
        (upload_csv_to_table wh true artifactRows sample table_id wd none ad
            skip fd enc).job
          = some ⟨skip, fd, enc, wd, false, some s⟩)
    ∧ (∀ (wh : Warehouse) (fileOk : Bool) (artifactRows : Nat)
        (sample : Option (List (String × Dtype))) (table_id wd : String)
        (schemaArg : Option (List SchemaField)) (ad : Bool) (skip : Nat)
        (fd enc : String) (j : JobConfig),
        (upload_csv_to_table wh fileOk artifactRows sample table_id wd schemaArg
            ad skip fd enc).job = some j →
        ¬(j.autodetect = true ∧ j.schema.isSome = true)) := by
  constructor
  · intro wh artifactRows sample table_id wd ad skip fd enc s h3 hr
    have hne := get_predefined_schema_ne_nil _ s hr
    unfold upload_csv_to_table
    rw [if_neg (by decide), if_neg (by simp [h3])]
    have hres : resolveSchemaStage ((pySplitDot table_id).getD 2 "") none ad sample
        = some (some s) := by
      unfold resolveSchemaStage
      rw [hr]
    cases hload : runLoadJob wd
        (create_dataset_if_not_exists wh).1.tableRows artifactRows with
    | some newRows =>
      simp only [hres, hload]
      simp [pySchemaOrNone, hne]
    | none =>
      simp only [hres, hload]
      simp [pySchemaOrNone, hne]
  · intro wh fileOk artifactRows sample table_id wd schemaArg ad skip fd enc j hj
    unfold upload_csv_to_table at hj
    by_cases hfk : fileOk = false
    · rw [if_pos hfk] at hj; cases hj
    · rw [if_neg hfk] at hj
      by_cases h3 : (pySplitDot table_id).length ≠ 3
      · rw [if_pos h3] at hj; cases hj
      · rw [if_neg h3] at hj
        cases hres : resolveSchemaStage ((pySplitDot table_id).getD 2 "")
            schemaArg ad sample with
        | none => simp only [hres] at hj; cases hj
        | some schemaOpt =>
          cases hload : runLoadJob wd
              (create_dataset_if_not_exists wh).1.tableRows artifactRows with
          | some newRows =>
            simp only [hres, hload] at hj
            injection hj with hj'
            subst hj'
            rintro ⟨ha, hs⟩
            simp only [Bool.and_eq_true] at ha
            rw [Option.isNone_iff_eq_none] at ha
            rw [ha.2] at hs
            simp [pySchemaOrNone] at hs
          | none =>
            simp only [hres, hload] at hj
            injection hj with hj'
            subst hj'
            rintro ⟨ha, hs⟩
            simp only [Bool.and_eq_true] at ha
            rw [Option.isNone_iff_eq_none] at ha
            rw [ha.2] at hs
            simp [pySchemaOrNone] at hs

/-- C6 witness: uploading to `p.d.purchases` with auto-detect on still
submits the registered purchases schema, autodetect off. -/
theorem c6_schema_resolution_witness :
    (pySplitDot "p.d.purchases").length = 3
    ∧ get_predefined_schema ((pySplitDot "p.d.purchases").getD 2 "")
        = some purchasesSchema
    ∧ (upload_csv_to_table ⟨true, 0⟩ true 5 none "p.d.purchases" "WRITE_APPEND"
        none true 1 "," "UTF-8").job
      = some ⟨1, ",", "UTF-8", "WRITE_APPEND", false, some purchasesSchema⟩ :=
  ⟨rfl, rfl,
   c6_schema_resolution.1 ⟨true, 0⟩ 5 none "p.d.purchases" "WRITE_APPEND" true 1
     "," "UTF-8" purchasesSchema rfl rfl⟩

/-- C7: a table identifier that does not split into exactly three
dot-separated segments issues no network request at all, and (when the
CSV file exists, the only check preceding it) returns the
invalid-identifier outcome. -/
theorem c7_invalid_identifier (wh : Warehouse) (artifactRows : Nat)
    (sample : Option (List (String × Dtype))) (table_id wd : String)
    (schemaArg : Option (List SchemaField)) (ad : Bool) (skip : Nat)
    (fd enc : String)
    (h : (pySplitDot table_id).length ≠ 3) :
    (∀ fileOk, (upload_csv_to_table wh fileOk artifactRows sample table_id wd
        schemaArg ad skip fd enc).netCalls = [])
    ∧ (upload_csv_to_table wh true artifactRows sample table_id wd schemaArg ad
        skip fd enc).outcome = .invalidIdentifier := by
  constructor
  · intro fileOk
    unfold upload_csv_to_table
    by_cases hfk : fileOk = false
    · rw [if_pos hfk]
    · rw [if_neg hfk, if_pos h]
  · unfold upload_csv_to_table
    rw [if_neg (by decide), if_pos h]

/-- C7 witness: the spec's scenario C, the two-segment identifier
`proj.ds`: zero network calls, invalid-identifier outcome. -/
theorem c7_invalid_identifier_witness :
    (pySplitDot "proj.ds").length ≠ 3
    ∧ (upload_csv_to_table ⟨true, 0⟩ true 5 none "proj.ds" "WRITE_APPEND" none
        true 1 "," "UTF-8").netCalls = []
    ∧ (upload_csv_to_table ⟨true, 0⟩ true 5 none "proj.ds" "WRITE_APPEND" none
        true 1 "," "UTF-8").outcome = UploadOutcome.invalidIdentifier :=
  ⟨by decide,
   (c7_invalid_identifier ⟨true, 0⟩ 5 none "proj.ds" "WRITE_APPEND" none true 1
     "," "UTF-8" (by decide)).1 true,
   (c7_invalid_identifier ⟨true, 0⟩ 5 none "proj.ds" "WRITE_APPEND" none true 1
     "," "UTF-8" (by decide)).2⟩

/-- One coordinator entity counts as a success exactly when its file
exists and its upload returned True. -/
theorem entitySucceeded_iff (e : EntityUpload) :
    entitySucceeded e = true ↔ e.fileFound = true ∧ e.result = some true := by
  unfold entitySucceeded
  rw [Bool.and_eq_true]
  constructor
  · rintro ⟨h1, h2⟩
    refine ⟨h1, ?_⟩
    cases hr : e.result with
    | none => simp only [hr] at h2; cases h2
    | some b =>
      cases b with
      | false => simp only [hr] at h2; cases h2
      | true => rfl
  · rintro ⟨h1, h2⟩
    exact ⟨h1, by simp only [h2]⟩

/-- The coordinator fold counts successes and always visits every
entity. -/
theorem batchFold_eq (entities : List EntityUpload) :
    ∀ acc : Nat × Nat, entities.foldl batchStep acc
      = (acc.1 + entities.countP entitySucceeded, acc.2 + entities.length) := by
  induction entities with
  | nil => intro acc; simp
  | cons e rest ih =>
    intro acc
    rw [List.foldl_cons, ih]
    have hstep : batchStep acc e
        = (acc.1 + (if entitySucceeded e then 1 else 0), acc.2 + 1) := by
      unfold batchStep entitySucceeded
      cases hf : e.fileFound with
      | false => simp [hf]
      | true =>
        cases hr : e.result with
        | none => simp [hf, hr]
        | some b => cases b <;> simp [hf, hr]
    rw [hstep]
    refine Prod.ext ?_ ?_ <;> simp [List.countP_cons] <;> omega

/-- C8: the coordinator's final status is success exactly when at least
one entity's upload succeeded, the success count is the number of
succeeding entities, and every entity of the mapping is visited — one
entity's failure or exception never aborts the others. -/
theorem c8_coordinator_isolation (entities : List EntityUpload) :
    ((batch_upload_csvs entities).1 = true
        ↔ ∃ e ∈ entities, e.fileFound = true ∧ e.result = some true)
    ∧ (batch_upload_csvs entities).2.1 = entities.countP entitySucceeded
    ∧ (batch_upload_csvs entities).2.2 = entities.length := by
  unfold batch_upload_csvs
  rw [batchFold_eq entities (0, 0)]
  refine ⟨?_, by simp, by simp⟩
  simp only [decide_eq_true_eq, Nat.zero_add]
  rw [List.countP_pos_iff]
  constructor
  · rintro ⟨e, he, hp⟩
    exact ⟨e, he, (entitySucceeded_iff e).mp hp⟩
  · rintro ⟨e, he, h1, h2⟩
    exact ⟨e, he, (entitySucceeded_iff e).mpr ⟨h1, h2⟩⟩

/-- C9: with a valid identifier and an existing artifact of r rows,
against a table of n rows: EMPTY on a non-empty table fails leaving the
row count at n, TRUNCATE ends with exactly r rows, APPEND with n + r. -/
theorem c9_write_dispositions (de : Bool) (n r : Nat)
    (sample : Option (List (String × Dtype))) (table_id : String)
    (skip : Nat) (fd enc : String)
    (h3 : (pySplitDot table_id).length = 3) :
    ((upload_csv_to_table ⟨de, n⟩ true r sample table_id "WRITE_EMPTY" none true
        skip fd enc).outcome
        = if n = 0 then UploadOutcome.ok r else UploadOutcome.loadFailed)
    ∧ (n ≠ 0 → (upload_csv_to_table ⟨de, n⟩ true r sample table_id "WRITE_EMPTY"
        none true skip fd enc).wh.tableRows = n)
    ∧ (upload_csv_to_table ⟨de, n⟩ true r sample table_id "WRITE_TRUNCATE" none
        true skip fd enc).outcome = UploadOutcome.ok r
    ∧ (upload_csv_to_table ⟨de, n⟩ true r sample table_id "WRITE_TRUNCATE" none
        true skip fd enc).wh.tableRows = r
    ∧ (upload_csv_to_table ⟨de, n⟩ true r sample table_id "WRITE_APPEND" none
        true skip fd enc).outcome = UploadOutcome.ok (n + r)
    ∧ (upload_csv_to_table ⟨de, n⟩ true r sample table_id "WRITE_APPEND" none
        true skip fd enc).wh.tableRows = n + r := by
  have hds : (create_dataset_if_not_exists ⟨de, n⟩).1.tableRows = n := by
    cases de <;> rfl
  have hres : ∃ opt, resolveSchemaStage ((pySplitDot table_id).getD 2 "") none
      true sample = some opt := by
    cases hgp : get_predefined_schema ((pySplitDot table_id).getD 2 "") with
    | some s => exact ⟨some s, by unfold resolveSchemaStage; rw [hgp]⟩
    | none => exact ⟨none, by unfold resolveSchemaStage; rw [hgp]; rfl⟩
  obtain ⟨opt, hres⟩ := hres
  have hempty : runLoadJob "WRITE_EMPTY" n r
      = if n = 0 then some r else none := rfl
  have htrunc : runLoadJob "WRITE_TRUNCATE" n r = some r := rfl
  have happend : runLoadJob "WRITE_APPEND" n r = some (n + r) := rfl
  refine ⟨?_, ?_, ?_, ?_, ?_, ?_⟩
  · unfold upload_csv_to_table
    rw [if_neg (by decide), if_neg (by simp [h3])]
    by_cases hn : n = 0
    · have hl : runLoadJob "WRITE_EMPTY"
          (create_dataset_if_not_exists ⟨de, n⟩).1.tableRows r = some r := by
        rw [hds, hempty, if_pos hn]
      simp only [hres, hl]
      simp [hn]
    · have hl : runLoadJob "WRITE_EMPTY"
          (create_dataset_if_not_exists ⟨de, n⟩).1.tableRows r = none := by
        rw [hds, hempty, if_neg hn]
      simp only [hres, hl]
      simp [hn]
  · intro hn
    unfold upload_csv_to_table
    rw [if_neg (by decide), if_neg (by simp [h3])]
    have hl : runLoadJob "WRITE_EMPTY"
        (create_dataset_if_not_exists ⟨de, n⟩).1.tableRows r = none := by
      rw [hds, hempty, if_neg hn]
    simp only [hres, hl]
    exact hds
  · unfold upload_csv_to_table
    rw [if_neg (by decide), if_neg (by simp [h3])]
    have hl : runLoadJob "WRITE_TRUNCATE"
        (create_dataset_if_not_exists ⟨de, n⟩).1.tableRows r = some r := by
      rw [hds, htrunc]
    simp only [hres, hl]
  · unfold upload_csv_to_table
    rw [if_neg (by decide), if_neg (by simp [h3])]
    have hl : runLoadJob "WRITE_TRUNCATE"
        (create_dataset_if_not_exists ⟨de, n⟩).1.tableRows r = some r := by
      rw [hds, htrunc]
    simp only [hres, hl]
  · unfold upload_csv_to_table
    rw [if_neg (by decide), if_neg (by simp [h3])]
    have hl : runLoadJob "WRITE_APPEND"
        (create_dataset_if_not_exists ⟨de, n⟩).1.tableRows r = some (n + r) := by
      rw [hds, happend]
    simp only [hres, hl]
  · unfold upload_csv_to_table
    rw [if_neg (by decide), if_neg (by simp [h3])]
    have hl : runLoadJob "WRITE_APPEND"
        (create_dataset_if_not_exists ⟨de, n⟩).1.tableRows r = some (n + r) := by
      rw [hds, happend]
    simp only [hres, hl]

/-- C9 witness: a 2-row table and a 3-row artifact: EMPTY fails leaving
2 rows, TRUNCATE ends at 3, APPEND at 5. -/
theorem c9_write_dispositions_witness :
    (pySplitDot "p.d.t").length = 3
    ∧ (upload_csv_to_table ⟨true, 2⟩ true 3 none "p.d.t" "WRITE_EMPTY" none true
        1 "," "UTF-8").outcome = UploadOutcome.loadFailed
    ∧ (upload_csv_to_table ⟨true, 2⟩ true 3 none "p.d.t" "WRITE_EMPTY" none true
        1 "," "UTF-8").wh.tableRows = 2
    ∧ (upload_csv_to_table ⟨true, 2⟩ true 3 none "p.d.t" "WRITE_TRUNCATE" none
        true 1 "," "UTF-8").outcome = UploadOutcome.ok 3
    ∧ (upload_csv_to_table ⟨true, 2⟩ true 3 none "p.d.t" "WRITE_APPEND" none
        true 1 "," "UTF-8").outcome = UploadOutcome.ok 5 :=
  ⟨rfl,
   (c9_write_dispositions true 2 3 none "p.d.t" 1 "," "UTF-8" rfl).1,
   (c9_write_dispositions true 2 3 none "p.d.t" 1 "," "UTF-8" rfl).2.1
     (by decide),
   (c9_write_dispositions true 2 3 none "p.d.t" 1 "," "UTF-8" rfl).2.2.1,
   (c9_write_dispositions true 2 3 none "p.d.t" 1 "," "UTF-8" rfl).2.2.2.2.1⟩

/-- C10: the inventory normalizer is total, returns exactly one row per
input record in order, and every row carries the six fixed columns in
order with unextractable fields recovered to null. -/
theorem c10_inventory_one_row (items : List JValue) :
    process_items_data items = .ok (items.map inventoryRow)
    ∧ (items.map inventoryRow).length = items.length
    ∧ (∀ item : JValue, (inventoryRow item).map Prod.fst = inventoryCols) :=
  ⟨process_items_data_eq items, by simp, fun _ => rfl⟩
